import Mathlib

/-!
Verification of the seqviz `SeqViewerContainer` core (file
`src/SeqViewerContainer.tsx`): the selection resolution / update functions,
the central-index store, and the two layout calculators (`linearProps`,
`circularProps`).

Modelling conventions:
* JavaScript numbers are modelled as exact rationals (`ℚ`); `Math.round`
  is `jsRound q = ⌊q + 1/2⌋` (JS rounds half away from zero toward +∞ for
  the values arising here).
* The transcendental part of the circular calculator (`Math.exp`,
  `Math.log`, `100 ** 0.83`) is modelled over `ℝ`.
* React state updates are modelled by explicit state passing: a function
  that may call `setState` returns the new state together with a flag or
  the extra values it produces.  The mutation of the `testSize` prop
  object performed by the calculators (the `size.width /= 2` and
  `size.width -= 28` statements write through the alias when `testSize`
  is supplied) is modelled by returning the updated props record.
-/

namespace SeqViz

/-- A height/width pair, as produced by the size observer or the `testSize`
prop of `SeqViewerContainer`. -/
structure Size where
  height : ℚ
  width : ℚ
deriving DecidableEq

/-- An x/y point (the center of the circular viewer). -/
structure Point where
  x : ℚ
  y : ℚ
deriving DecidableEq

/-- The `viewer` prop: "linear" | "circular" | "both" | "both_flip". -/
inductive Viewer where
  | linear
  | circular
  | both
  | both_flip
deriving DecidableEq

/-- Models `viewer.includes("both")`: true exactly for the two `both*`
tokens (the strings "linear" and "circular" do not contain "both"). -/
def includesBoth : Viewer → Bool
  | .both => true
  | .both_flip => true
  | _ => false

/-- The sequence type prop (`SeqType`): dna, rna or amino-acid. -/
inductive SeqType where
  | dna
  | rna
  | aa
deriving DecidableEq

/-- The slice of `SeqViewerContainerProps` read by the two layout
calculators: `seq` enters only through `seq.length`, and `zoom` is the
`{ circular, linear }` record.  `testSize` is the optional forced size
that overrides the observed `height`/`width`. -/
structure Props where
  seqLen : ℕ
  seqType : SeqType
  viewer : Viewer
  height : ℚ
  width : ℚ
  zoomCircular : ℚ
  zoomLinear : ℚ
  testSize : Option Size
deriving DecidableEq

/-- JavaScript `Math.round` on the rationals: round half toward +∞. -/
def jsRound (q : ℚ) : ℤ := ⌊q + 1 / 2⌋

/-- Width in pixels of a character that is 12px (`CHAR_WIDTH` constant of
the source file). -/
def CHAR_WIDTH : ℚ := 7.2

/-- The `Selection` record of the selection context, as used by the
container: a base-pair range with direction, a type tag, and the two
internal-only fields `ref` and `parent` (opaque rendering back-references,
modelled as optional opaque tokens). -/
structure Selection where
  start : ℤ
  «end» : ℤ
  clockwise : Bool
  type : String
  ref : Option ℕ
  parent : Option ℕ
deriving DecidableEq

/-- The optional `selection` prop of the container:
`{ clockwise?: boolean; end: number; start: number }`. -/
structure SelectionProp where
  clockwise : Option Bool
  «end» : ℤ
  start : ℤ
deriving DecidableEq

/-- A selection with the internal-only fields `parent` and `ref` removed:
the shape of the `rest` value forwarded to `onSelection`. -/
structure StrippedSelection where
  start : ℤ
  «end» : ℤ
  clockwise : Bool
  type : String
deriving DecidableEq

/-- The destructuring `const { parent, ref, ...rest } = selection`. -/
def stripSelection (s : Selection) : StrippedSelection :=
  { start := s.start, «end» := s.«end», clockwise := s.clockwise, type := s.type }

/-- The container's `getSelection(state, prop?)`: if the caller supplied a
selection prop, return `{ ...prop, clockwise: typeof prop.clockwise ===
"undefined" || !!prop.clockwise, type: "" }` (the spread carries `start`
and `end`; `ref` and `parent` are left undefined); otherwise return the
internal state. -/
def getSelection (state : Selection) (prop : Option SelectionProp) : Selection :=
  match prop with
  | some p =>
      { start := p.start
        «end» := p.«end»
        clockwise := match p.clockwise with
          | none => true
          | some b => b
        type := ""
        ref := none
        parent := none }
  | none => state

/-- The container's `setSelection(selection)`.  `propSelection` is
`this.props.selection`, `stateSelection` the current internal selection
state.  The code destructures `{ parent, ref, ...rest }`, stores the full
`selection` into state only when `this.props.selection` is absent, and
calls `this.props.onSelection(rest)` (a required prop).  Returned: the
internal selection state after the call, and the value passed to
`onSelection`. -/
def setSelection (propSelection : Option SelectionProp) (stateSelection : Selection)
    (sel : Selection) : Selection × StrippedSelection :=
  ( match propSelection with
    | none => sel
    | some _ => stateSelection
  , stripSelection sel )

/-- The two indices held in the container's `centralIndex` state (the
`setCentralIndex` closure stored alongside them carries no data). -/
structure CentralIndexState where
  circular : ℤ
  linear : ℤ
deriving DecidableEq

/-- The container's `setCentralIndex(type, value)`.  Throws
`Error("Unknown central index type: " + type)` unless `type` is exactly
"LINEAR" or "CIRCULAR"; returns without mutating when the stored value
for `type.toLowerCase()` already equals `value`; otherwise calls
`setState` replacing only that entry.  The returned flag records whether
`setState` was called. -/
def setCentralIndex (ty : String) (value : ℤ) (st : CentralIndexState) :
    Except String (CentralIndexState × Bool) :=
  if ty ≠ "LINEAR" ∧ ty ≠ "CIRCULAR" then
    .error ("Unknown central index type: " ++ ty)
  else if (if ty = "LINEAR" then st.linear else st.circular) = value then
    .ok (st, false)
  else if ty = "LINEAR" then
    .ok ({ st with linear := value }, true)
  else
    .ok ({ st with circular := value }, true)

/-- The central-index state resulting from a `setCentralIndex` call: the
new state on success, the unchanged state when the call threw. -/
def applyCentralIndex (ty : String) (value : ℤ) (st : CentralIndexState) :
    CentralIndexState :=
  match setCentralIndex ty value st with
  | .ok (s, _) => s
  | .error _ => st

/-- The record returned by `linearProps` (the computed layout fields; the
spread of the remaining props is identity and omitted).  `zoomLinear`
models the `zoom: { linear: zoom }` echo. -/
structure LinearParams where
  bpsPerBlock : ℤ
  charWidth : ℚ
  elementHeight : ℚ
  lineHeight : ℚ
  seqFontSize : ℤ
  size : Size
  zoomLinear : ℚ
deriving DecidableEq

/-- The container's `linearProps()`.  Mirrors the source statement by
statement: `size` starts as `testSize || { height, width }`; under a
`both*` viewer `size.width /= 2`; `seqFontSize = min(round(zoom*0.1 +
9.5), 18)`; `bpsPerBlock = round((size.width / seqFontSize) * 1.4) || 1`,
divided by 3 (rounded) for amino-acid sequences; the zoom tiers
`<= 5` (times 3), `<= 10` (times 2), `> 70` (times `70/zoom`, rounded);
re-clamp `max(1, ...)`; then `if (size.width && bpsPerBlock < seq.length)
size.width -= 28`; finally `charWidth = size.width / bpsPerBlock`,
`lineHeight = 1.4 * seqFontSize`, `elementHeight = 16`.  Because `size`
aliases the `testSize` prop object when that prop is supplied, the width
updates write through to the props: the second component is the props
record after the call. -/
def linearProps (p : Props) : LinearParams × Props :=
  let size0 := p.testSize.getD { height := p.height, width := p.width }
  let zoom := p.zoomLinear
  let size1 := if includesBoth p.viewer then { size0 with width := size0.width / 2 } else size0
  let seqFontSize : ℤ := min (jsRound (zoom * 0.1 + 9.5)) 18
  let b0 : ℤ :=
    let r := jsRound ((size1.width / (seqFontSize : ℚ)) * 1.4)
    if r = 0 then 1 else r
  let b1 : ℤ := if p.seqType = .aa then jsRound ((b0 : ℚ) / 3) else b0
  let b2 : ℤ :=
    if zoom ≤ 5 then b1 * 3
    else if zoom ≤ 10 then b1 * 2
    else if zoom > 70 then jsRound ((b1 : ℚ) * (70 / zoom))
    else b1
  let bpsPerBlock : ℤ := max 1 b2
  let size2 :=
    if size1.width ≠ 0 ∧ bpsPerBlock < (p.seqLen : ℤ) then
      { size1 with width := size1.width - 28 }
    else size1
  ( { bpsPerBlock := bpsPerBlock
      charWidth := size2.width / (bpsPerBlock : ℚ)
      elementHeight := 16
      lineHeight := 1.4 * (seqFontSize : ℚ)
      seqFontSize := seqFontSize
      size := size2
      zoomLinear := zoom }
  , if p.testSize.isSome then { p with testSize := some size2 } else p )

/-- The record returned by `circularProps`, rational fields only: the
transcendental `bpsOnArc` field is modelled separately by `bpsOnArc`
below (in the source it is computed from `seq.length` alone).
`zoomCircular` models the `zoom: { circular: zoom }` echo. -/
structure CircularParams where
  center : Point
  radius : ℚ
  size : Size
  yDiff : ℚ
  zoomCircular : ℚ
deriving DecidableEq

/-- The container's `circularProps()`, rational part.  `size` starts as
`testSize || { height, width }` (aliasing `testSize` when supplied, so the
`both*` halving writes through — second component is the props after the
call); `center = { size.width/2, size.height/2 }`; `limitingDim =
min(size.height, size.width)`; `radius = limitingDim * 0.34`, returned as
`radius === 0 ? 1 : radius`; `yDiff = 0`. -/
def circularProps (p : Props) : CircularParams × Props :=
  let size0 := p.testSize.getD { height := p.height, width := p.width }
  let zoom := p.zoomCircular
  let size1 := if includesBoth p.viewer then { size0 with width := size0.width / 2 } else size0
  let center : Point := { x := size1.width / 2, y := size1.height / 2 }
  let limitingDim := min size1.height size1.width
  let radius := limitingDim * 0.34
  ( { center := center
      radius := if radius = 0 then 1 else radius
      size := size1
      yDiff := 0
      zoomCircular := zoom }
  , if p.testSize.isSome then { p with testSize := some size1 } else p )

/-- The beta coefficient of `circularProps`:
`Math.exp(Math.log(50 / seqLength) / -(100 ** exp))` with `exp = 0.83`,
modelled over the reals. -/
noncomputable def beta (seqLength : ℕ) : ℝ :=
  Real.exp (Real.log (50 / (seqLength : ℝ)) / -((100 : ℝ) ^ (0.83 : ℝ)))

/-- The `bpsOnArc` field of the record returned by `circularProps`:
`seqLength * beta`.  In the source this is computed from `seq.length`
alone — neither the zoom nor the viewport size enters. -/
noncomputable def bpsOnArc (seqLength : ℕ) : ℝ := (seqLength : ℝ) * beta seqLength

/-- The linear tiling pipeline as the specification words it, staged:
font size, base tiling with minimum 1, amino-acid division by 3, the zoom
tiers, a final re-clamp to minimum 1, then the 28px width reduction (only
afterwards, and only when a full row does not hold the whole sequence),
and `charWidth` as reduced width over `bpsPerBlock`.  Returns
`(bpsPerBlock, final width, charWidth)`. -/
def linearTilingSpec (st : SeqType) (len : ℕ) (w zoom : ℚ) : ℤ × ℚ × ℚ :=
  let f : ℤ := min (jsRound (zoom * 0.1 + 9.5)) 18
  let base : ℤ := max 1 (jsRound ((w / (f : ℚ)) * 1.4))
  let afterAA : ℤ := if st = .aa then jsRound ((base : ℚ) / 3) else base
  let afterZoom : ℤ :=
    if zoom ≤ 5 then afterAA * 3
    else if zoom ≤ 10 then afterAA * 2
    else if zoom > 70 then jsRound ((afterAA : ℚ) * (70 / zoom))
    else afterAA
  let bps : ℤ := max 1 afterZoom
  let wFinal : ℚ := if w ≠ 0 ∧ bps < (len : ℤ) then w - 28 else w
  (bps, wFinal, wFinal / (bps : ℚ))

/-- A rounded value of a nonnegative rational is nonnegative. -/
lemma jsRound_nonneg (q : ℚ) (hq : 0 ≤ q) : 0 ≤ jsRound q := by
  unfold jsRound
  exact Int.le_floor.mpr (by push_cast; linarith)

/-- Rounding is monotone. -/
lemma jsRound_mono (a b : ℚ) (h : a ≤ b) : jsRound a ≤ jsRound b :=
  Int.floor_mono (by linarith)

/-- For a nonnegative integer, the JavaScript `x || 1` idiom of the source
(`if r = 0 then 1 else r`) agrees with the specification's "minimum 1"
(`max 1 r`). -/
lemma ite_zero_eq_max (r : ℤ) (hr : 0 ≤ r) : (if r = 0 then 1 else r) = max 1 r := by
  rcases eq_or_ne r 0 with h | h
  · simp [h]
  · rw [if_neg h, max_eq_right (by omega)]

/-- C1: selection resolution.  For every internal selection state and
every caller-supplied selection input, `getSelection` returns the
caller-supplied input when present — with `clockwise` filled to `true`
exactly when it is absent (otherwise kept) and `type` forced to the empty
string — and returns the internal state unchanged when no caller-supplied
input is present.  In particular, resolving caller-supplied
`{start: 10, end: 20}` without `clockwise` yields
`{start: 10, end: 20, clockwise: true, type: ""}`. -/
theorem getSelection_resolves (state : Selection) (p : SelectionProp) :
    getSelection state (some p) =
      { start := p.start
        «end» := p.«end»
        clockwise := p.clockwise.getD true
        type := ""
        ref := none
        parent := none } ∧
    getSelection state none = state ∧
    getSelection state (some { clockwise := none, «end» := 20, start := 10 }) =
      { start := 10, «end» := 20, clockwise := true, type := "", ref := none, parent := none } := by
  refine ⟨?_, rfl, rfl⟩
  rcases p with ⟨cw, e, s⟩
  cases cw <;> rfl

/-- C10: an explicitly `false` caller-supplied `clockwise` is preserved by
selection resolution — only an undefined `clockwise` is filled with
`true`. -/
theorem getSelection_preserves_explicit_false (state : Selection) (a b : ℤ) :
    (getSelection state (some { clockwise := some false, «end» := b, start := a })).clockwise
      = false := rfl

/-- C2: selection apply.  For every new selection value, `setSelection`
notifies the external listener with the value stripped of `parent` and
`ref` (leaving `{start, end, clockwise, type}`) regardless of
controlled/uncontrolled mode, and stores the full value (with `parent`
and `ref`) into internal state exactly in the uncontrolled case: with no
caller-supplied selection the stored state is the full new value, and
with a caller-supplied selection the internal state is left unchanged. -/
theorem setSelection_strips_and_stores (propSel : Option SelectionProp)
    (stateSel sel : Selection) :
    (setSelection propSel stateSel sel).2 =
      { start := sel.start, «end» := sel.«end», clockwise := sel.clockwise, type := sel.type } ∧
    (setSelection propSel stateSel sel).2 = stripSelection sel ∧
    (setSelection none stateSel sel).1 = sel ∧
    (∀ pr : SelectionProp, (setSelection (some pr) stateSel sel).1 = stateSel) :=
  ⟨rfl, rfl, rfl, fun _ => rfl⟩

/-- C4: for every axis token other than "LINEAR" and "CIRCULAR" and every
value, `setCentralIndex` fails with the invalid-axis error propagated
synchronously to the caller, and the stored central indices for both
layout kinds are left unchanged.  In particular
`setCentralIndex("DIAGONAL", 5)` fails this way. -/
theorem setCentralIndex_invalid_axis (ty : String) (value : ℤ) (st : CentralIndexState)
    (h1 : ty ≠ "LINEAR") (h2 : ty ≠ "CIRCULAR") :
    setCentralIndex ty value st = .error ("Unknown central index type: " ++ ty) ∧
    applyCentralIndex ty value st = st := by
  have herr : setCentralIndex ty value st = .error ("Unknown central index type: " ++ ty) := by
    simp [setCentralIndex, h1, h2]
  exact ⟨herr, by simp [applyCentralIndex, herr]⟩

/-- C4 witness: the invalid-axis failure at the concrete call
`setCentralIndex("DIAGONAL", 5)` on the stored state `{circular: 3,
linear: 4}`. -/
theorem setCentralIndex_invalid_axis_witness :
    (("DIAGONAL" : String) ≠ "LINEAR" ∧ ("DIAGONAL" : String) ≠ "CIRCULAR") ∧
    setCentralIndex "DIAGONAL" 5 { circular := 3, linear := 4 } =
      .error ("Unknown central index type: " ++ "DIAGONAL") ∧
    applyCentralIndex "DIAGONAL" 5 { circular := 3, linear := 4 } =
      { circular := 3, linear := 4 } :=
  ⟨⟨by decide, by decide⟩,
    setCentralIndex_invalid_axis "DIAGONAL" 5 { circular := 3, linear := 4 }
      (by decide) (by decide)⟩

/-- C5: for each recognized axis kind, `setCentralIndex` is a no-op (no
state mutation) when the value equals the currently stored index for that
kind; when it differs it replaces only that kind's entry and preserves
the other kind's index.  Consequently calling it twice with the same kind
and value mutates state at most once: the second call never mutates. -/
theorem setCentralIndex_noop_on_equal (v : ℤ) (st : CentralIndexState) :
    setCentralIndex "LINEAR" v st =
      (if st.linear = v then .ok (st, false) else .ok ({ st with linear := v }, true)) ∧
    setCentralIndex "CIRCULAR" v st =
      (if st.circular = v then .ok (st, false) else .ok ({ st with circular := v }, true)) ∧
    setCentralIndex "LINEAR" v (applyCentralIndex "LINEAR" v st) =
      .ok (applyCentralIndex "LINEAR" v st, false) ∧
    setCentralIndex "CIRCULAR" v (applyCentralIndex "CIRCULAR" v st) =
      .ok (applyCentralIndex "CIRCULAR" v st, false) := by
  have eqL : ∀ s : CentralIndexState, setCentralIndex "LINEAR" v s =
      (if s.linear = v then .ok (s, false) else .ok ({ s with linear := v }, true)) := by
    intro s
    simp +decide [setCentralIndex]
  have eqC : ∀ s : CentralIndexState, setCentralIndex "CIRCULAR" v s =
      (if s.circular = v then .ok (s, false) else .ok ({ s with circular := v }, true)) := by
    intro s
    simp +decide [setCentralIndex]
  have hLlin : (applyCentralIndex "LINEAR" v st).linear = v := by
    by_cases h : st.linear = v <;> simp [applyCentralIndex, eqL st, h]
  have hCcirc : (applyCentralIndex "CIRCULAR" v st).circular = v := by
    by_cases h : st.circular = v <;> simp [applyCentralIndex, eqC st, h]
  refine ⟨eqL st, eqC st, ?_, ?_⟩
  · rw [eqL, if_pos hLlin]
  · rw [eqC, if_pos hCcirc]

/-- C7: for every viewport size with nonnegative dimensions and every
zoom in [0, 100], the linear layout calculator returns `bpsPerBlock ≥ 1`
and `seqFontSize ≤ 18`, with
`seqFontSize = min(round(zoom * 0.1 + 9.5), 18)`. -/
theorem linear_bounds (len : ℕ) (st : SeqType) (vw : Viewer) (hq wq zc zoom : ℚ)
    (ts : Option Size) (hh : 0 ≤ hq) (hw : 0 ≤ wq) (h0 : 0 ≤ zoom) (h100 : zoom ≤ 100) :
    1 ≤ (linearProps { seqLen := len, seqType := st, viewer := vw, height := hq, width := wq, zoomCircular := zc, zoomLinear := zoom, testSize := ts }).1.bpsPerBlock ∧
    (linearProps { seqLen := len, seqType := st, viewer := vw, height := hq, width := wq, zoomCircular := zc, zoomLinear := zoom, testSize := ts }).1.seqFontSize ≤ 18 ∧
    (linearProps { seqLen := len, seqType := st, viewer := vw, height := hq, width := wq, zoomCircular := zc, zoomLinear := zoom, testSize := ts }).1.seqFontSize = min (jsRound (zoom * 0.1 + 9.5)) 18 :=
  ⟨le_max_left 1 _, min_le_right _ 18, rfl⟩

/-- C7 witness: the bounds at sequence length 10000, viewport 800×600,
zoom 50, mode linear. -/
theorem linear_bounds_witness :
    ((0 : ℚ) ≤ 600 ∧ (0 : ℚ) ≤ 800 ∧ (0 : ℚ) ≤ 50 ∧ (50 : ℚ) ≤ 100) ∧
    1 ≤ (linearProps { seqLen := 10000, seqType := .dna, viewer := .linear, height := 600, width := 800, zoomCircular := 50, zoomLinear := 50, testSize := none }).1.bpsPerBlock :=
  ⟨⟨by decide, by decide, by decide, by decide⟩,
    (linear_bounds 10000 .dna .linear 600 800 50 50 none
      (by decide) (by decide) (by decide) (by decide)).1⟩

/-- C6 counterexample: the claim "radius ≥ 1 for every sequence length
≥ 1 and every viewport size" fails on the code: for the 1×1 viewport the
radius is `min(1, 1) * 0.34 = 0.34 < 1` — the code clamps only an
exactly-zero radius to 1, not small nonzero radii. -/
theorem circular_radius_below_one_cex :
    (circularProps { seqLen := 100, seqType := .dna, viewer := .circular, height := 1, width := 1, zoomCircular := 50, zoomLinear := 50, testSize := none }).1.radius = 17 / 50 ∧
    ¬(1 ≤ (17 / 50 : ℚ)) := by
  constructor
  · norm_num [circularProps, includesBoth]
  · norm_num

/-- C6 amended: for every sequence length ≥ 1 and every viewport with
nonnegative dimensions, the circular layout calculator returns
`radius > 0`: the radius is `limitingDim * 0.34` with
`limitingDim = min(height, width)`, and a result of exactly 0 (degenerate
zero-size viewport) is raised to 1; a small nonzero viewport can still
yield a radius below 1. -/
theorem circular_radius_positive (len : ℕ) (st : SeqType) (hq wq zc zl : ℚ)
    (hlen : 1 ≤ len) (hh : 0 ≤ hq) (hw : 0 ≤ wq) :
    0 < (circularProps { seqLen := len, seqType := st, viewer := .circular, height := hq, width := wq, zoomCircular := zc, zoomLinear := zl, testSize := none }).1.radius ∧
    (circularProps { seqLen := len, seqType := st, viewer := .circular, height := hq, width := wq, zoomCircular := zc, zoomLinear := zl, testSize := none }).1.radius
      = (if min hq wq * 0.34 = 0 then 1 else min hq wq * 0.34) := by
  have hform : (circularProps { seqLen := len, seqType := st, viewer := .circular, height := hq, width := wq, zoomCircular := zc, zoomLinear := zl, testSize := none }).1.radius
      = (if min hq wq * 0.34 = 0 then 1 else min hq wq * 0.34) := rfl
  refine ⟨?_, hform⟩
  rw [hform]
  by_cases hz : min hq wq * 0.34 = 0
  · simp [hz]
  · have hmin : (0 : ℚ) ≤ min hq wq := le_min hh hw
    have hnn : (0 : ℚ) ≤ min hq wq * 0.34 := mul_nonneg hmin (by norm_num)
    simp only [if_neg hz]
    exact lt_of_le_of_ne hnn (Ne.symm hz)

/-- C6 amended witness: positivity at the degenerate zero-size viewport
(sequence length 100, 0×0), where the clamp produces radius 1. -/
theorem circular_radius_positive_witness :
    ((1 : ℕ) ≤ 100 ∧ (0 : ℚ) ≤ 0 ∧ (0 : ℚ) ≤ 0) ∧
    0 < (circularProps { seqLen := 100, seqType := .dna, viewer := .circular, height := 0, width := 0, zoomCircular := 50, zoomLinear := 50, testSize := none }).1.radius :=
  ⟨⟨by decide, by decide, by decide⟩,
    (circular_radius_positive 100 .dna 0 0 50 50 (by decide) (by decide) (by decide)).1⟩

/-- C9 counterexample: the claim "radius = min(height, width) * 0.34 for
every sequence length ≥ 1 and viewport size" fails on the code at the
zero-size viewport: the code returns 1 there (the `radius === 0 ? 1 :
radius` clamp), while the formula gives 0. -/
theorem circular_radius_formula_cex :
    (circularProps { seqLen := 4361, seqType := .dna, viewer := .circular, height := 0, width := 0, zoomCircular := 50, zoomLinear := 0, testSize := none }).1.radius = 1 ∧
    min (0 : ℚ) 0 * 0.34 = 0 ∧ (1 : ℚ) ≠ 0 := by
  refine ⟨?_, by norm_num, by norm_num⟩
  norm_num [circularProps, includesBoth]

/-- C9 amended: for every sequence length ≥ 1, the circular layout
calculator computes `beta = exp(ln(50 / seqLength) / -(100 ^ 0.83))` and
`bpsOnArc = seqLength * beta` (from the sequence length alone), and its
radius, center and size are independent of the circular zoom value;
`radius = min(height, width) * 0.34` except that an exactly-zero product
is clamped to 1.  In particular for sequence length 4361 and viewport
600×400 the returned radius is exactly 136. -/
theorem circular_formulas (len : ℕ) (st : SeqType) (vw : Viewer) (hq wq z1 z2 zl : ℚ)
    (ts : Option Size) (hlen : 1 ≤ len) :
    ((circularProps { seqLen := len, seqType := st, viewer := vw, height := hq, width := wq, zoomCircular := z1, zoomLinear := zl, testSize := ts }).1.radius
        = (circularProps { seqLen := len, seqType := st, viewer := vw, height := hq, width := wq, zoomCircular := z2, zoomLinear := zl, testSize := ts }).1.radius ∧
      (circularProps { seqLen := len, seqType := st, viewer := vw, height := hq, width := wq, zoomCircular := z1, zoomLinear := zl, testSize := ts }).1.center
        = (circularProps { seqLen := len, seqType := st, viewer := vw, height := hq, width := wq, zoomCircular := z2, zoomLinear := zl, testSize := ts }).1.center ∧
      (circularProps { seqLen := len, seqType := st, viewer := vw, height := hq, width := wq, zoomCircular := z1, zoomLinear := zl, testSize := ts }).1.size
        = (circularProps { seqLen := len, seqType := st, viewer := vw, height := hq, width := wq, zoomCircular := z2, zoomLinear := zl, testSize := ts }).1.size) ∧
    bpsOnArc len = (len : ℝ) * Real.exp (Real.log (50 / (len : ℝ)) / -((100 : ℝ) ^ (0.83 : ℝ))) ∧
    (circularProps { seqLen := len, seqType := st, viewer := .circular, height := hq, width := wq, zoomCircular := z1, zoomLinear := zl, testSize := none }).1.radius
      = (if min hq wq * 0.34 = 0 then 1 else min hq wq * 0.34) ∧
    (circularProps { seqLen := 4361, seqType := .dna, viewer := .circular, height := 400, width := 600, zoomCircular := 50, zoomLinear := 0, testSize := none }).1.radius = 136 := by
  refine ⟨⟨rfl, rfl, rfl⟩, rfl, rfl, ?_⟩
  norm_num [circularProps, includesBoth]

/-- C9 amended witness: radius exactly 136 for sequence length 4361 and
viewport 600×400. -/
theorem circular_formulas_witness :
    (1 : ℕ) ≤ 4361 ∧
    (circularProps { seqLen := 4361, seqType := .dna, viewer := .circular, height := 400, width := 600, zoomCircular := 50, zoomLinear := 0, testSize := none }).1.radius = 136 :=
  ⟨by decide,
    (circular_formulas 4361 .dna .circular 400 600 50 0 0 none (by decide)).2.2.2⟩

/-- C3 counterexample: the layout calculators are not pure when a forced
test size is supplied.  With `testSize = {height: 600, width: 800}` and
viewer mode "both", `linearProps` returns `bpsPerBlock = 37` and mutates
the `testSize` prop object (the `both` halving and the 28px reduction
write through the `size` alias, leaving width 372), so a second
evaluation of the same props object returns `bpsPerBlock = 17`: two runs
with the same inputs disagree and the inputs are changed. -/
theorem linearProps_mutates_testSize_cex :
    (linearProps { seqLen := 10000, seqType := .dna, viewer := .both, height := 600, width := 800, zoomCircular := 50, zoomLinear := 50, testSize := some { height := 600, width := 800 } }).2
      ≠ { seqLen := 10000, seqType := .dna, viewer := .both, height := 600, width := 800, zoomCircular := 50, zoomLinear := 50, testSize := some { height := 600, width := 800 } } ∧
    (linearProps { seqLen := 10000, seqType := .dna, viewer := .both, height := 600, width := 800, zoomCircular := 50, zoomLinear := 50, testSize := some { height := 600, width := 800 } }).1.bpsPerBlock = 37 ∧
    (linearProps ((linearProps { seqLen := 10000, seqType := .dna, viewer := .both, height := 600, width := 800, zoomCircular := 50, zoomLinear := 50, testSize := some { height := 600, width := 800 } }).2)).1.bpsPerBlock = 17 := by
  have hstep : (linearProps { seqLen := 10000, seqType := .dna, viewer := .both, height := 600, width := 800, zoomCircular := 50, zoomLinear := 50, testSize := some { height := 600, width := 800 } }).2
      = { seqLen := 10000, seqType := .dna, viewer := .both, height := 600, width := 800, zoomCircular := 50, zoomLinear := 50, testSize := some { height := 600, width := 372 } } := by
    norm_num [linearProps, jsRound, includesBoth]
    decide
  refine ⟨?_, ?_, ?_⟩
  · rw [hstep]
    decide
  · norm_num [linearProps, jsRound, includesBoth]
    decide
  · rw [hstep]
    norm_num [linearProps, jsRound, includesBoth]
    decide

/-- C3 amended: the two layout calculators are deterministic, and when no
forced test size is supplied they are pure: they leave the input props
unchanged and a second evaluation over the same inputs yields the
identical layout record.  (When a forced test size is supplied, the
calculators mutate the supplied size object — the `both*` halving and the
28px reduction write through the alias — so repeated runs can
disagree.) -/
theorem layout_calcs_pure_without_testSize (p : Props) (hts : p.testSize = none) :
    (linearProps p).2 = p ∧ (circularProps p).2 = p ∧
    (linearProps ((linearProps p).2)).1 = (linearProps p).1 ∧
    (circularProps ((circularProps p).2)).1 = (circularProps p).1 := by
  have h1 : (linearProps p).2 = p := by simp [linearProps, hts]
  have h2 : (circularProps p).2 = p := by simp [circularProps, hts]
  exact ⟨h1, h2, by rw [h1], by rw [h2]⟩

/-- C3 amended witness: purity at sequence length 10000, mode both,
viewport 800×600, zoom 50, with no forced test size. -/
theorem layout_calcs_pure_without_testSize_witness :
    ({ seqLen := 10000, seqType := .dna, viewer := .both, height := 600, width := 800, zoomCircular := 50, zoomLinear := 50, testSize := none } : Props).testSize = none ∧
    (linearProps { seqLen := 10000, seqType := .dna, viewer := .both, height := 600, width := 800, zoomCircular := 50, zoomLinear := 50, testSize := none }).2
      = { seqLen := 10000, seqType := .dna, viewer := .both, height := 600, width := 800, zoomCircular := 50, zoomLinear := 50, testSize := none } :=
  ⟨rfl,
    (layout_calcs_pure_without_testSize
      { seqLen := 10000, seqType := .dna, viewer := .both, height := 600, width := 800, zoomCircular := 50, zoomLinear := 50, testSize := none } rfl).1⟩

/-- C8: the linear tiling pipeline ordering.  For a linear-mode viewer
with nonnegative width and zoom in [0, 100], the calculator's
`bpsPerBlock`, final width and `charWidth` equal the staged specification
`linearTilingSpec`: base tiling `round((width / seqFontSize) * 1.4)` with
minimum 1, the amino-acid division by 3 before the zoom correction, the
zoom tiers (≤ 5 triples, ≤ 10 doubles, > 70 scales by `70/zoom`), a final
re-clamp to minimum 1, and only afterwards the 28px width reduction (only
when `bpsPerBlock` is below the sequence length), with `charWidth` the
reduced width over `bpsPerBlock`.  In particular for a dna sequence of
length 10000, width 800, zoom 50, mode linear: `seqFontSize = 15`,
`bpsPerBlock = 75`, and the 28px reduction applies (final width 772). -/
theorem linear_tiling_pipeline (st : SeqType) (len : ℕ) (hq w zc zoom : ℚ)
    (hw : 0 ≤ w) (h0 : 0 ≤ zoom) (h100 : zoom ≤ 100) :
    ((linearProps { seqLen := len, seqType := st, viewer := .linear, height := hq, width := w, zoomCircular := zc, zoomLinear := zoom, testSize := none }).1.bpsPerBlock = (linearTilingSpec st len w zoom).1 ∧
     (linearProps { seqLen := len, seqType := st, viewer := .linear, height := hq, width := w, zoomCircular := zc, zoomLinear := zoom, testSize := none }).1.size.width = (linearTilingSpec st len w zoom).2.1 ∧
     (linearProps { seqLen := len, seqType := st, viewer := .linear, height := hq, width := w, zoomCircular := zc, zoomLinear := zoom, testSize := none }).1.charWidth = (linearTilingSpec st len w zoom).2.2) ∧
    ((linearProps { seqLen := 10000, seqType := .dna, viewer := .linear, height := 600, width := 800, zoomCircular := 50, zoomLinear := 50, testSize := none }).1.seqFontSize = 15 ∧
     (linearProps { seqLen := 10000, seqType := .dna, viewer := .linear, height := 600, width := 800, zoomCircular := 50, zoomLinear := 50, testSize := none }).1.bpsPerBlock = 75 ∧
     (linearProps { seqLen := 10000, seqType := .dna, viewer := .linear, height := 600, width := 800, zoomCircular := 50, zoomLinear := 50, testSize := none }).1.size.width = 772 ∧
     (linearProps { seqLen := 10000, seqType := .dna, viewer := .linear, height := 600, width := 800, zoomCircular := 50, zoomLinear := 50, testSize := none }).1.charWidth = 772 / 75) := by
  have hf : (10 : ℤ) ≤ min (jsRound (zoom * 0.1 + 9.5)) 18 := by
    refine le_min ?_ (by norm_num)
    have h95 : jsRound (9.5 : ℚ) ≤ jsRound (zoom * 0.1 + 9.5) :=
      jsRound_mono _ _ (by nlinarith)
    have h10 : jsRound (9.5 : ℚ) = 10 := by norm_num [jsRound]
    omega
  have hfpos : (0 : ℚ) < ((min (jsRound (zoom * 0.1 + 9.5)) 18 : ℤ) : ℚ) := by
    have : (0 : ℤ) < min (jsRound (zoom * 0.1 + 9.5)) 18 := by omega
    exact_mod_cast this
  have hr : 0 ≤ jsRound ((w / ((min (jsRound (zoom * 0.1 + 9.5)) 18 : ℤ) : ℚ)) * 1.4) := by
    refine jsRound_nonneg _ ?_
    have := div_nonneg hw hfpos.le
    nlinarith
  refine ⟨?_, ?_, ?_, ?_, ?_⟩
  · simp only [linearProps, linearTilingSpec, includesBoth, Option.getD_none, Bool.false_eq_true,
      if_false]
    rw [ite_zero_eq_max _ hr]
    simp only [apply_ite Size.width]
    refine ⟨?_, ?_, ?_⟩ <;> first | rfl | trivial
  · norm_num [linearProps, jsRound, includesBoth]
  · norm_num [linearProps, jsRound, includesBoth]
    decide
  · norm_num [linearProps, jsRound, includesBoth]
    decide
  · norm_num [linearProps, jsRound, includesBoth]
    simp +decide [apply_ite Size.width]

/-- C8 witness: the concrete tiling at dna, length 10000, width 800,
zoom 50, mode linear. -/
theorem linear_tiling_pipeline_witness :
    ((0 : ℚ) ≤ 800 ∧ (0 : ℚ) ≤ 50 ∧ (50 : ℚ) ≤ 100) ∧
    (linearProps { seqLen := 10000, seqType := .dna, viewer := .linear, height := 600, width := 800, zoomCircular := 50, zoomLinear := 50, testSize := none }).1.bpsPerBlock = 75 :=
  ⟨⟨by decide, by decide, by decide⟩,
    (linear_tiling_pipeline .dna 10000 600 800 50 50
      (by decide) (by decide) (by decide)).2.2.1⟩

end SeqViz
